import Mathlib

/-!
Verification of the fullstack-chat repository (two Python services) against its
natural-language specification.

The development shallowly embeds the code that the claims are about:

* `AIService` — the AI service (`ai-service/app`): the model loader
  (`services/model_loader.py`) and the generation service
  (`services/generation_service.py`).  Hugging Face model weights, tokenizers
  and the actual neural decoding are outside the program; they appear as
  oracle parameters (a `Bool` for whether a download/load succeeds, a function
  for the decoding outcome).  Python floats are modelled as rationals `ℚ`;
  the clamping logic only uses `min`/`max`/comparison, where float and
  rational semantics agree on the values involved.

* `ApiService` — the API service (`api-service/app`): the SQLAlchemy-backed
  repositories (`repositories/*.py`) and the chat service
  (`services/chat_service.py`).  The database is modelled as explicit lists of
  rows plus a monotone clock supplying `func.now()` timestamps and fresh ids;
  `ORDER BY` is modelled as a stable sort by the ordered-by key (with `NULL`
  sorting above every value, as Postgres does for `DESC` keys).
-/

deriving instance DecidableEq for Except

namespace AIService

/-- A role-tagged message, as passed between the services
(`{"role": ..., "content": ...}` dictionaries / the `Message` pydantic schema). -/
structure Msg where
role : String
content : String
deriving DecidableEq, Repr

/-- The generation-parameter dictionary (`Dict[str, Any]`), restricted to the
keys either service ever reads or writes: `temperature`, `max_tokens` and
`max_length`.  A field is `none` when the key is absent from the dictionary. -/
structure GenParams where
temperature : Option ℚ := none
max_tokens : Option ℤ := none
max_length : Option ℤ := none
deriving DecidableEq, Repr

/-- `dict.update`: keys present in `upd` override those of `base`. -/
def GenParams.update (base upd : GenParams) : GenParams where
temperature := match upd.temperature with | some t => some t | none => base.temperature
max_tokens := match upd.max_tokens with | some t => some t | none => base.max_tokens
max_length := match upd.max_length with | some t => some t | none => base.max_length

/-- Python truthiness of the parameter dictionary (`if request.model_parameters:`):
a dictionary is falsy exactly when it has no keys. -/
def GenParams.isEmpty (p : GenParams) : Bool :=
p.temperature = none && p.max_tokens = none && p.max_length = none

/-- Lower-cased character list of a Python string (`s.lower()`). -/
def lowerChars (s : String) : List Char :=
s.data.map Char.toLower

/-- `"blenderbot" in model_name.lower()`. -/
def containsBlenderbot (model_name : String) : Bool :=
decide ("blenderbot".data <:+: lowerChars model_name)

/-- `"dialogpt" in model_name.lower()`. -/
def containsDialogpt (model_name : String) : Bool :=
decide ("dialogpt".data <:+: lowerChars model_name)

/-- `ModelLoader._get_model_type` (model_loader.py, lines 57-64). -/
def get_model_type (model_name : String) : String :=
if containsBlenderbot model_name then "conversational"
else if containsDialogpt model_name then "dialog"
else "text-generation"

/-- State of a `ModelLoader`: the keys of `loaded_models` in insertion order
(a Python `dict` preserves it) and `current_model`.  Each entry of
`loaded_models` stores, besides the key, only the model/tokenizer objects and
`"type": self._get_model_type(model_name)`, so the key list determines the
whole dictionary up to the opaque model objects. -/
structure LoaderState where
loaded_models : List String
current_model : Option String
deriving DecidableEq, Repr

/-- `ModelLoader.__init__`: no model loaded, no current model. -/
def LoaderState.empty : LoaderState :=
⟨[], none⟩

/-- `ModelLoader.load_model` (lines 92-147).  Downloading/instantiating the
Hugging Face model can raise; `hf_ok` is the oracle telling whether it
succeeds.  Returns the Python return value and the new state. -/
def load_model (st : LoaderState) (model_name : String) (hf_ok : Bool) :
    Bool × LoaderState :=
if model_name ∈ st.loaded_models then (true, st)
else if hf_ok then
  (true,
    { loaded_models := st.loaded_models ++ [model_name]
      current_model :=
        match st.current_model with
        | none => some model_name
        | some c => some c })
else (false, st)

/-- `ModelLoader.unload_model` (lines 149-176).  `del` plus garbage collection
cannot raise here; when the unloaded model was current, `current_model`
becomes `list(self.loaded_models.keys())[0]` — the first remaining key in
insertion order — or `None` when nothing remains. -/
def unload_model (st : LoaderState) (model_name : String) :
    Bool × LoaderState :=
if model_name ∈ st.loaded_models then
  let rest := st.loaded_models.erase model_name
  (true,
    { loaded_models := rest
      current_model :=
        if st.current_model = some model_name then rest.head?
        else st.current_model })
else (false, st)

/-- `ModelLoader.set_current_model` (lines 190-198). -/
def set_current_model (st : LoaderState) (model_name : String) :
    Bool × LoaderState :=
if model_name ∈ st.loaded_models then
  (true, { st with current_model := some model_name })
else (false, st)

/-- `ModelLoader.is_model_loaded` (lines 182-184). -/
def is_model_loaded (st : LoaderState) (model_name : String) : Bool :=
model_name ∈ st.loaded_models

/-- The two decoding routines a generation call can be dispatched to:
`_generate_blenderbot_response` and `_generate_dialogpt_response`. -/
inductive Routine where
| blenderbot
| dialogpt
deriving DecidableEq, Repr

/-- A generation call as dispatched by `ModelLoader.generate_response`: which
decoding routine is invoked and with which effective arguments. -/
structure GenCall where
routine : Routine
messages : List Msg
max_length : ℤ
temperature : ℚ
do_sample : Bool
deriving DecidableEq, Repr

/-- `ModelLoader.generate_response` (lines 212-245) up to the dispatch: raises
`ValueError` when the model is not loaded, otherwise clamps the parameters
(`max_length = min(params.get("max_tokens", 150), 500)`,
`temperature = max(0.1, min(params.get("temperature", 0.8), 1.0))`,
`do_sample = temperature > 0.1`) and dispatches on the stored model type,
which is `_get_model_type(model_name)` recorded at load time. -/
def generate_response (st : LoaderState) (model_name : String)
    (messages : List Msg) (parameters : Option GenParams) :
    Except String GenCall :=
if model_name ∈ st.loaded_models then
  let params := parameters.getD {}
  let max_length : ℤ := min (params.max_tokens.getD 150) 500
  let temperature : ℚ := max (mkRat 1 10) (min (params.temperature.getD (mkRat 8 10)) 1)
  let do_sample : Bool := decide (temperature > mkRat 1 10)
  if get_model_type model_name = "conversational" then
    .ok ⟨.blenderbot, messages, max_length, temperature, do_sample⟩
  else
    .ok ⟨.dialogpt, messages, max_length, temperature, do_sample⟩
else
  .error ("Model " ++ model_name ++ " is not loaded")

/-- One mutating model-loader operation, for stating state invariants. -/
inductive LoaderOp where
| load (model_name : String) (hf_ok : Bool)
| unload (model_name : String)
| setCurrent (model_name : String)

/-- Apply one operation, keeping only the state. -/
def applyOp (st : LoaderState) : LoaderOp → LoaderState
| .load n ok => (load_model st n ok).2
| .unload n => (unload_model st n).2
| .setCurrent n => (set_current_model st n).2

/-- Run a sequence of model-loader operations from a state. -/
def runOps (st : LoaderState) (ops : List LoaderOp) : LoaderState :=
ops.foldl applyOp st

/-- The model loader's state invariant: `loaded_models` has no duplicate keys
(it is a Python `dict`) and `current_model` is `None` or one of its keys. -/
def LoaderState.Inv (st : LoaderState) : Prop :=
st.loaded_models.Nodup ∧
  (st.current_model = none ∨
    ∃ n, st.current_model = some n ∧ n ∈ st.loaded_models)

/-- `GenerationService._get_model_display_name` (generation_service.py,
lines 68-74): map the two known ids to short names, else
`model_id.split("/")[-1]`. -/
def get_model_display_name (model_id : String) : String :=
if model_id = "facebook/blenderbot-400M-distill" then "BlenderBot"
else if model_id = "microsoft/DialoGPT-small" then "DialoGPT"
else ⟨(model_id.data.splitOn '/').getLastD model_id.data⟩

/-- `GenerationService._generate_fallback_response` (lines 59-66): a fixed
greeting when the conversation has no user message, otherwise a canned reply
quoting the latest user message; both name the model via
`_get_model_display_name`. -/
def generate_fallback_response (model_id : String) (messages : List Msg) :
    String :=
match (messages.filter (·.role = "user")).getLast? with
| none =>
  "Hello! I'm " ++ get_model_display_name model_id ++ ". How can I help you today?"
| some m =>
  "I understand you're asking about '" ++ m.content ++ "'. I'm " ++
    get_model_display_name model_id ++
    ", and I'm here to help, though I'm currently running in a limited mode."

/-- `GenerationService.generate_response` (lines 15-57).  The oracle `hf_ok`
says whether loading the model would succeed, and `decode` gives the outcome
of the dispatched neural decoding (`Except.error` when it raises).  The whole
body sits in a `try`/`except Exception` that falls back to
`_generate_fallback_response`, so the Python function always returns a string;
correspondingly the embedding is total with result type `String`. -/
def GenerationService.generate_response (st : LoaderState) (model_id : String)
    (messages : List Msg) (parameters : Option GenParams) (hf_ok : Bool)
    (decode : GenCall → Except String String) : String × LoaderState :=
if is_model_loaded st model_id then
  match AIService.generate_response st model_id messages parameters with
  | .error _ => (generate_fallback_response model_id messages, st)
  | .ok call =>
    match decode call with
    | .error _ => (generate_fallback_response model_id messages, st)
    | .ok text => (text, st)
else
  let (success, st') := load_model st model_id hf_ok
  if success then
    match AIService.generate_response st' model_id messages parameters with
    | .error _ => (generate_fallback_response model_id messages, st')
    | .ok call =>
      match decode call with
      | .error _ => (generate_fallback_response model_id messages, st')
      | .ok text => (text, st')
  else
    (generate_fallback_response model_id messages, st')

end AIService

namespace ApiService

open AIService (Msg GenParams)

/-! ### Python `float(str)` on rationals

`ChatService._send_message_to_chat_internal` applies `float(...)` to the
stored temperature string.  The embedding parses the decimal syntax Python
accepts for ordinary finite literals (optional surrounding whitespace,
optional sign, digits with optional fraction and optional exponent) into an
exact rational; unparseable strings yield `none`, where `float` raises
`ValueError`. -/

/-- Value of a digit string, most significant first. -/
def digitsVal (cs : List Char) : ℕ :=
cs.foldl (fun n c => n * 10 + (c.toNat - 48)) 0

/-- Non-empty string of ASCII digits. -/
def isDigits (cs : List Char) : Bool :=
!cs.isEmpty && cs.all (·.isDigit)

/-- Parse `digits[.digits]` (at least one digit) into numerator and number of
fractional digits; the value is `n / 10 ^ fl`. -/
def parseMantissa? (cs : List Char) : Option (ℤ × ℕ) :=
match cs.splitOn '.' with
| [ip] => if isDigits ip then some ((digitsVal ip : ℤ), 0) else none
| [ip, fp] =>
  if ip.all (·.isDigit) && fp.all (·.isDigit) && !(ip.isEmpty && fp.isEmpty) then
    some ((digitsVal ip * 10 ^ fp.length + digitsVal fp : ℤ), fp.length)
  else none
| _ => none

/-- Parse a decimal exponent with optional sign. -/
def parseExp? (cs : List Char) : Option ℤ :=
match cs with
| '-' :: rest => if isDigits rest then some (-(digitsVal rest : ℤ)) else none
| '+' :: rest => if isDigits rest then some ((digitsVal rest : ℤ)) else none
| _ => if isDigits cs then some ((digitsVal cs : ℤ)) else none

/-- Parse an unsigned float literal, exponent included. -/
def parseUnsigned? (cs : List Char) : Option ℚ :=
match (cs.map Char.toLower).splitOn 'e' with
| [m] => (parseMantissa? m).map (fun p => mkRat p.1 (10 ^ p.2))
| [m, ex] =>
  match parseMantissa? m, parseExp? ex with
  | some p, some e =>
    if 0 ≤ e then some (mkRat (p.1 * 10 ^ e.toNat) (10 ^ p.2))
    else some (mkRat p.1 (10 ^ (p.2 + (-e).toNat)))
  | _, _ => none
| _ => none

/-- `float(s)` for a finite decimal literal. -/
def pyFloat? (s : String) : Option ℚ :=
let cs := ((s.data.dropWhile Char.isWhitespace).reverse.dropWhile
  Char.isWhitespace).reverse
match cs with
| '-' :: rest => (parseUnsigned? rest).map Neg.neg
| '+' :: rest => parseUnsigned? rest
| _ => parseUnsigned? cs

/-! ### The data model (`database/models.py`)

Rows of the three tables.  UUID primary keys and `func.now()` timestamps are
modelled by naturals drawn from a monotone clock in the `DB` state, so ids are
unique and `created_at` values strictly increase in insertion order — which is
what `ORDER BY created_at` relies on. -/

/-- A `chat_sessions` row (`ChatSession` in models.py).  `updated_at` is
maintained by the ORM and read by no claim, so it is omitted. -/
structure Chat where
id : ℕ
session_id : String
title : String
model_name : String
is_archived : Bool
is_pinned : Bool
message_count : ℕ
created_at : ℕ
last_message_at : Option ℕ
deriving DecidableEq, Repr

/-- A `messages` row (`Message` in models.py); its `session_id` column is the
foreign key to `chat_sessions.id`.  `message_metadata` is carried as the
optional error string the chat service stores there. -/
structure StoredMessage where
id : ℕ
session_id : ℕ
role : String
content : String
message_metadata : Option String
created_at : ℕ
deriving DecidableEq, Repr

/-- A `chat_settings` row (`ChatSettings` in models.py); its primary key
`session_id` is the foreign key to `chat_sessions.id`.  The temperature is
stored as a nullable string, `max_tokens` as a nullable integer. -/
structure SettingsRow where
session_id : ℕ
temperature : Option String
max_tokens : Option ℤ
system_prompt : Option String
created_at : ℕ
deriving DecidableEq, Repr

/-- The database state: the three tables in insertion order, plus the clock
supplying fresh ids and `func.now()` timestamps. -/
structure DB where
chats : List Chat
messages : List StoredMessage
settings : List SettingsRow
clock : ℕ
deriving DecidableEq, Repr

/-- Well-formedness the schema guarantees: message timestamps strictly
increase in insertion order and lie below the clock. -/
def DB.WF (db : DB) : Prop :=
db.messages.Pairwise (fun a b => a.created_at < b.created_at) ∧
  ∀ m ∈ db.messages, m.created_at < db.clock

/-! ### Repositories (`repositories/*.py`) -/

/-- `BaseRepository.get` for the chat table:
`db.query(ChatSession).filter(ChatSession.id == id).first()`. -/
def getChat (db : DB) (id : ℕ) : Option Chat :=
db.chats.find? (·.id = id)

/-- Commit a modified chat row: the ORM writes it back in place. -/
def DB.putChat (db : DB) (c : Chat) : DB :=
{ db with chats := db.chats.map (fun x => if x.id = c.id then c else x) }

/-- `MessageRepository.add_message` (message_repository.py, lines 67-82):
insert a row whose id and `created_at` come from the database
(`uuid4` default / `func.now()` server default, both fresh from the clock). -/
def add_message (db : DB) (session_id : ℕ) (role content : String)
    (message_metadata : Option String := none) : StoredMessage × DB :=
let m : StoredMessage := ⟨db.clock, session_id, role, content, message_metadata, db.clock⟩
(m, { db with messages := db.messages ++ [m], clock := db.clock + 1 })

/-- `MessageRepository.get_conversation_context` (lines 50-65): the chat's
messages `ORDER BY created_at DESC LIMIT max_messages`, reversed into
chronological order.  In the model `created_at` strictly increases in
insertion order, so the descending order is exactly the reverse of the
filtered table. -/
def get_conversation_context (db : DB) (session_id : ℕ)
    (max_messages : ℕ) : List StoredMessage :=
let ms := db.messages.filter (·.session_id = session_id)
(ms.reverse.take max_messages).reverse

/-- `ChatSettingsRepository.get_by_session_id` (settings_repository.py,
lines 16-18); `get_by_chat_id` is an alias for it. -/
def get_settings_by_session_id (db : DB) (session_id : ℕ) : Option SettingsRow :=
db.settings.find? (·.session_id = session_id)

/-- `ChatSettingsRepository.get_or_create_by_session_id` (lines 20-35):
return the existing row, or insert one with the defaults
`temperature="0.7"`, `max_tokens=1000`, `system_prompt=None`.
`get_or_create_by_chat_id` is an alias for it. -/
def get_or_create_by_session_id (db : DB) (session_id : ℕ) :
    SettingsRow × DB :=
match get_settings_by_session_id db session_id with
| some s => (s, db)
| none =>
  let s : SettingsRow := ⟨session_id, some "0.7", some 1000, none, db.clock⟩
  (s, { db with settings := db.settings ++ [s], clock := db.clock + 1 })

/-- `ChatSessionUpdate` (chat_schemas.py, lines 22-27) with pydantic
`exclude_unset` semantics: `none` is an omitted field. -/
structure ChatSessionUpdate where
title : Option String := none
model_name : Option String := none
is_archived : Option Bool := none
is_pinned : Option Bool := none
deriving DecidableEq, Repr

/-- `BaseRepository.update` applied to a chat row: `setattr` for each field
present in `obj_in.dict(exclude_unset=True)`, then commit. -/
def Chat.applyUpdate (c : Chat) (u : ChatSessionUpdate) : Chat :=
{ c with
  title := u.title.getD c.title
  model_name := u.model_name.getD c.model_name
  is_archived := u.is_archived.getD c.is_archived
  is_pinned := u.is_pinned.getD c.is_pinned }

/-- `ChatRepository.archive_chat` (chat_repository.py, lines 70-77): set
`is_archived` on the row and commit; every other column is untouched. -/
def ChatRepository.archive_chat (db : DB) (chat_id : ℕ) (archived : Bool) :
    Option Chat × DB :=
match getChat db chat_id with
| none => (none, db)
| some c =>
  let c' := { c with is_archived := archived }
  (some c', db.putChat c')

/-- `ChatRepository.pin_chat` (lines 79-86). -/
def ChatRepository.pin_chat (db : DB) (chat_id : ℕ) (pinned : Bool) :
    Option Chat × DB :=
match getChat db chat_id with
| none => (none, db)
| some c =>
  let c' := { c with is_pinned := pinned }
  (some c', db.putChat c')

/-- `ChatRepository.update_last_message_time` (lines 88-99): stamp
`last_message_at = func.now()` and, unless `update_count` is false, sync
`message_count` with the chat's actual number of message rows. -/
def update_last_message_time (db : DB) (chat_id : ℕ)
    (update_count : Bool := true) : Option Chat × DB :=
match getChat db chat_id with
| none => (none, db)
| some c =>
  let cnt := if update_count
    then (db.messages.filter (·.session_id = c.id)).length
    else c.message_count
  let c' := { c with last_message_at := some db.clock, message_count := cnt }
  (some c', { db.putChat c' with clock := db.clock + 1 })

/-- `BaseRepository.delete` for the chat table (base_repository.py, lines
83-89): `session.delete(obj)` followed by commit.  The relationships in
models.py carry `cascade="all, delete-orphan"`, so the chat's message rows
and settings row are removed with it. -/
def deleteChat (db : DB) (id : ℕ) : Option Chat × DB :=
match getChat db id with
| none => (none, db)
| some c =>
  (some c,
    { db with
      chats := db.chats.filter (fun x => x.id ≠ id)
      messages := db.messages.filter (fun m => m.session_id ≠ id)
      settings := db.settings.filter (fun s => s.session_id ≠ id) })

/-- The `ORDER BY desc(last_message_at), desc(created_at)` order on chat rows
(chat_repository.py, line 194): `a` sorts no later than `b`.  Postgres sorts
`NULL` above every value on a `DESC` key, so a missing `last_message_at`
comes first. -/
def chatLe (a b : Chat) : Bool :=
(match b.last_message_at, a.last_message_at with
 | some x, some y => decide (x < y)
 | some _, none => true
 | none, _ => false) ||
  (a.last_message_at = b.last_message_at && b.created_at ≤ a.created_at)

/-- `chatLe` as a relation, for the sort. -/
def ChatOrder : Chat → Chat → Prop :=
fun a b => chatLe a b = true

instance : DecidableRel ChatOrder :=
fun a b => instDecidableEqBool (chatLe a b) true

/-- `ChatRepository.get_session_chats` (lines 168-198): filter by session and
by the archived/pinned flags, order by `last_message_at` then `created_at`
descending, then `OFFSET skip LIMIT limit`.  `ORDER BY` is modelled as a
stable insertion sort by the key order `ChatOrder`. -/
def get_session_chats (db : DB) (session_id : String) (skip limit : ℕ)
    (include_archived filter_archived_only filter_pinned_only : Bool) :
    List Chat :=
let q := db.chats.filter (·.session_id = session_id)
let q :=
  if filter_archived_only then q.filter (·.is_archived)
  else if filter_pinned_only then
    let q := q.filter (·.is_pinned)
    if include_archived then q else q.filter (fun c => !c.is_archived)
  else if include_archived then q
  else q.filter (fun c => !c.is_archived)
((q.insertionSort ChatOrder).drop skip).take limit

/-- `ChatSettingsUpdate` (settings_schemas.py) with `exclude_unset`
semantics: the outer `Option` is presence of the field in the request,
the inner one the nullable column value. -/
structure ChatSettingsUpdate where
temperature : Option (Option String) := none
max_tokens : Option (Option ℤ) := none
system_prompt : Option (Option String) := none
deriving DecidableEq, Repr

/-- `BaseRepository.update` applied to a settings row. -/
def SettingsRow.applyUpdate (s : SettingsRow) (u : ChatSettingsUpdate) :
    SettingsRow :=
{ s with
  temperature := u.temperature.getD s.temperature
  max_tokens := u.max_tokens.getD s.max_tokens
  system_prompt := u.system_prompt.getD s.system_prompt }

/-- Commit a modified settings row. -/
def DB.putSettings (db : DB) (s : SettingsRow) : DB :=
{ db with
  settings := db.settings.map (fun x => if x.session_id = s.session_id then s else x) }

/-! ### The chat service (`services/chat_service.py`) -/

/-- `SendMessageRequest` (message_schemas.py, lines 43-46): the
`model_parameters` dictionary defaults to `{}`. -/
structure SendMessageRequest where
content : String
model_parameters : GenParams := {}
deriving DecidableEq, Repr

/-- The payload `AIServiceClient.generate_response` posts to the AI service's
`/generate` endpoint (ai_client.py, lines 53-67); the endpoint hands
`messages` and `parameters` through to the generation service unchanged
(ai-service main.py, lines 53-88). -/
structure AIRequest where
model_id : String
messages : List Msg
parameters : GenParams
deriving DecidableEq, Repr

/-- The data a successful `_send_message_to_chat_internal` run produces: the
two stored messages, the payload forwarded to the AI service, and the
returned `message_count`. -/
structure SendOk where
user_message : StoredMessage
assistant_message : StoredMessage
request : AIRequest
message_count : ℕ
deriving DecidableEq, Repr

/-- Python truthiness of a string: non-empty. -/
def pyTruthy (s : String) : Bool :=
!s.data.isEmpty

/-- Python `str.strip()`: drop leading and trailing whitespace. -/
def pyStrip (s : String) : String :=
⟨((s.data.dropWhile Char.isWhitespace).reverse.dropWhile Char.isWhitespace).reverse⟩

/-- `if chat_settings.system_prompt and chat_settings.system_prompt.strip():`
(chat_service.py, line 363). -/
def system_prompt_used (p : Option String) : Bool :=
match p with
| none => false
| some s => pyTruthy s && pyTruthy (pyStrip s)

/-- `float(chat_settings.temperature) if chat_settings.temperature else 0.7`
(chat_service.py, line 380): `None` and the empty string are falsy; `float`
raises `ValueError` on an unparseable string, which propagates. -/
def temperature_param (t : Option String) : Except String ℚ :=
match t with
| none => .ok (mkRat 7 10)
| some s =>
  if pyTruthy s then
    match pyFloat? s with
    | some q => .ok q
    | none => .error "ValueError: could not convert string to float"
  else .ok (mkRat 7 10)

/-- `chat_settings.max_tokens if chat_settings.max_tokens else 1000`
(chat_service.py, line 381): `None` and `0` are falsy. -/
def max_tokens_param (mt : Option ℤ) : ℤ :=
match mt with
| none => 1000
| some v => if v = 0 then 1000 else v

/-- `ChatService._send_message_to_chat_internal` (chat_service.py, lines
330-435).  The oracle `ai` is the outcome of the HTTP round trip to the AI
service (`Except.error` = `AIServiceError`, which the code catches by storing
an apology message).  The parameter dictionary is built as
`{"temperature": ..., "max_length": ...}` — note the second key — and
request-specific parameters override it when the request carries any. -/
def send_message_to_chat_internal (db : DB) (chat_id : ℕ)
    (req : SendMessageRequest) (ai : AIRequest → Except String String) :
    Except String (SendOk × DB) :=
match getChat db chat_id with
| none => .error "Chat not found"
| some chat =>
  let um := add_message db chat_id "user" req.content
  let user_message := um.1
  let db1 := um.2
  let context := get_conversation_context db1 chat_id 10
  let sc := get_or_create_by_session_id db1 chat.id
  let chat_settings := sc.1
  let db2 := sc.2
  let ai_messages :=
    (if system_prompt_used chat_settings.system_prompt
     then [(⟨"system", chat_settings.system_prompt.getD ""⟩ : Msg)]
     else []) ++ context.map (fun m => (⟨m.role, m.content⟩ : Msg))
  match temperature_param chat_settings.temperature with
  | .error e => .error e
  | .ok t =>
    let base : GenParams :=
      { temperature := some t
        max_tokens := none
        max_length := some (max_tokens_param chat_settings.max_tokens) }
    let ai_parameters :=
      if req.model_parameters.isEmpty then base
      else base.update req.model_parameters
    let request : AIRequest := ⟨chat.model_name, ai_messages, ai_parameters⟩
    match ai request with
    | .ok resp =>
      let am := add_message db2 chat_id "assistant" resp
      let ut := update_last_message_time am.2 chat_id
      .ok (⟨user_message, am.1, request,
        (ut.1.map (·.message_count)).getD chat.message_count⟩, ut.2)
    | .error e =>
      let am := add_message db2 chat_id "assistant"
        "I'm sorry, I'm experiencing technical difficulties. Please try again."
        (some e)
      let ut := update_last_message_time am.2 chat_id
      .ok (⟨user_message, am.1, request,
        (ut.1.map (·.message_count)).getD chat.message_count⟩, ut.2)

/-- `ChatService.send_message_to_chat` (lines 315-328): verify the chat
belongs to the session (`raise ValueError` otherwise), then delegate. -/
def send_message_to_chat (db : DB) (chat_id : ℕ) (session_id : String)
    (req : SendMessageRequest) (ai : AIRequest → Except String String) :
    Except String (SendOk × DB) :=
match getChat db chat_id with
| none => .error "Chat not found or access denied"
| some c =>
  if c.session_id = session_id then
    send_message_to_chat_internal db chat_id req ai
  else .error "Chat not found or access denied"

/-- `ChatService.update_chat` (lines 111-123). -/
def ChatService.update_chat (db : DB) (chat_id : ℕ) (session_id : String)
    (update_data : ChatSessionUpdate) : Option Chat × DB :=
match getChat db chat_id with
| none => (none, db)
| some c =>
  if c.session_id = session_id then
    let c' := c.applyUpdate update_data
    (some c', db.putChat c')
  else (none, db)

/-- `ChatService.delete_chat` (lines 125-137): ownership check, then the base
repository's `delete`; returns whether a row was deleted. -/
def ChatService.delete_chat (db : DB) (chat_id : ℕ) (session_id : String) :
    Bool × DB :=
match getChat db chat_id with
| none => (false, db)
| some c =>
  if c.session_id = session_id then
    let d := deleteChat db chat_id
    (d.1.isSome, d.2)
  else (false, db)

/-- `ChatService.archive_chat` (lines 139-151). -/
def ChatService.archive_chat (db : DB) (chat_id : ℕ) (session_id : String)
    (archived : Bool := true) : Option Chat × DB :=
match getChat db chat_id with
| none => (none, db)
| some c =>
  if c.session_id = session_id then
    ChatRepository.archive_chat db chat_id archived
  else (none, db)

/-- `ChatService.pin_chat` (lines 153-165). -/
def ChatService.pin_chat (db : DB) (chat_id : ℕ) (session_id : String)
    (pinned : Bool := true) : Option Chat × DB :=
match getChat db chat_id with
| none => (none, db)
| some c =>
  if c.session_id = session_id then
    ChatRepository.pin_chat db chat_id pinned
  else (none, db)

/-- `ChatService.get_chat_settings` (lines 465-480). -/
def ChatService.get_chat_settings (db : DB) (chat_id : ℕ)
    (session_id : String) : Option SettingsRow × DB :=
match getChat db chat_id with
| none => (none, db)
| some c =>
  if c.session_id = session_id then
    let sc := get_or_create_by_session_id db c.id
    (some sc.1, sc.2)
  else (none, db)

/-- `ChatService.update_chat_settings` (lines 482-526). -/
def ChatService.update_chat_settings (db : DB) (chat_id : ℕ)
    (session_id : String) (settings_update : ChatSettingsUpdate) :
    Option SettingsRow × DB :=
match getChat db chat_id with
| none => (none, db)
| some c =>
  if c.session_id = session_id then
    let sc := get_or_create_by_session_id db c.id
    let s' := sc.1.applyUpdate settings_update
    (some s', sc.2.putSettings s')
  else (none, db)

/-- `ChatService.get_session_chats` (lines 283-300): translate the page into
`skip = (page - 1) * per_page` and delegate to the repository. -/
def ChatService.get_session_chats (db : DB) (session_id : String)
    (page per_page : ℕ) (include_archived filter_archived_only
    filter_pinned_only : Bool) : List Chat :=
ApiService.get_session_chats db session_id ((page - 1) * per_page) per_page
  include_archived filter_archived_only filter_pinned_only

end ApiService

/-! ## Theorems -/

namespace AIService

/-- The dispatch test `model_type == "conversational"` is exactly the
case-insensitive substring test on the model name. -/
theorem get_model_type_conversational_iff (m : String) :
    get_model_type m = "conversational" ↔ containsBlenderbot m = true := by
unfold get_model_type
by_cases hb : containsBlenderbot m = true
· simp [hb]
· simp only [hb, Bool.false_eq_true, if_false, iff_false]
  by_cases hd : containsDialogpt m = true <;> simp [hd]

end AIService

/-- C1: for every generation request dispatched by the model loader, the
effective parameters are clamped: temperature is
`max(0.1, min(requested, 1.0))` with default `0.8` when absent, the max token
length is `min(requested max_tokens, 500)` with default `150` when absent,
and sampling is enabled exactly when the clamped temperature is strictly
greater than `0.1`. -/
theorem C1_loader_clamps_generation_parameters (st : AIService.LoaderState)
    (model_name : String) (messages : List AIService.Msg)
    (parameters : Option AIService.GenParams)
    (h : model_name ∈ st.loaded_models) :
    ∃ call : AIService.GenCall,
      AIService.generate_response st model_name messages parameters =
        .ok call ∧
      call.temperature =
        max (mkRat 1 10)
          (min (((parameters.getD {}).temperature).getD (mkRat 8 10)) 1) ∧
      call.max_length = min (((parameters.getD {}).max_tokens).getD 150) 500 ∧
      (call.do_sample = true ↔ call.temperature > mkRat 1 10) := by
by_cases hb : AIService.get_model_type model_name = "conversational"
· refine ⟨⟨.blenderbot, messages,
    min (((parameters.getD {}).max_tokens).getD 150) 500,
    max (mkRat 1 10)
      (min (((parameters.getD {}).temperature).getD (mkRat 8 10)) 1),
    decide (max (mkRat 1 10)
      (min (((parameters.getD {}).temperature).getD (mkRat 8 10)) 1) >
        mkRat 1 10)⟩,
    ?_, rfl, rfl, by simp [decide_eq_true_iff]⟩
  simp only [AIService.generate_response, h, hb, if_true]
· refine ⟨⟨.dialogpt, messages,
    min (((parameters.getD {}).max_tokens).getD 150) 500,
    max (mkRat 1 10)
      (min (((parameters.getD {}).temperature).getD (mkRat 8 10)) 1),
    decide (max (mkRat 1 10)
      (min (((parameters.getD {}).temperature).getD (mkRat 8 10)) 1) >
        mkRat 1 10)⟩,
    ?_, rfl, rfl, by simp [decide_eq_true_iff]⟩
  simp only [AIService.generate_response, h, hb, if_true, if_false]

/-- Witness for C1 at a concrete loaded model and parameter dictionary. -/
theorem C1_loader_clamps_generation_parameters_witness :
    ("microsoft/DialoGPT-small" : String) ∈ ["microsoft/DialoGPT-small"] ∧
    ∃ call : AIService.GenCall,
      AIService.generate_response ⟨["microsoft/DialoGPT-small"], none⟩
        "microsoft/DialoGPT-small" []
        (some ⟨some (mkRat 17 10), some 800, none⟩) = .ok call ∧
      call.temperature =
        max (mkRat 1 10)
          (min ((((some ⟨some (mkRat 17 10), some 800, none⟩ :
            Option AIService.GenParams)).getD {}).temperature.getD
              (mkRat 8 10)) 1) ∧
      call.max_length =
        min ((((some ⟨some (mkRat 17 10), some 800, none⟩ :
          Option AIService.GenParams)).getD {}).max_tokens.getD 150) 500 ∧
      (call.do_sample = true ↔ call.temperature > mkRat 1 10) :=
⟨by decide,
  C1_loader_clamps_generation_parameters ⟨["microsoft/DialoGPT-small"], none⟩
    "microsoft/DialoGPT-small" [] (some ⟨some (mkRat 17 10), some 800, none⟩)
    (by decide)⟩

/-- C3: for a loaded model, `generate_response` dispatches to the BlenderBot
decoding routine exactly when the model name contains "blenderbot"
case-insensitively, and to the DialoGPT/causal-LM routine otherwise; for a
model that is not loaded it raises instead of generating. -/
theorem C3_model_family_dispatch (st : AIService.LoaderState)
    (model_name : String) (messages : List AIService.Msg)
    (parameters : Option AIService.GenParams) :
    (model_name ∈ st.loaded_models →
      ∃ call : AIService.GenCall,
        AIService.generate_response st model_name messages parameters =
          .ok call ∧
        (call.routine = .blenderbot ↔
          AIService.containsBlenderbot model_name = true) ∧
        (call.routine = .dialogpt ↔
          AIService.containsBlenderbot model_name = false)) ∧
    (model_name ∉ st.loaded_models →
      ∃ e, AIService.generate_response st model_name messages parameters =
        .error e) := by
constructor
· intro h
  by_cases hb : AIService.get_model_type model_name = "conversational"
  · refine ⟨⟨.blenderbot, messages,
      min (((parameters.getD {}).max_tokens).getD 150) 500,
      max (mkRat 1 10)
        (min (((parameters.getD {}).temperature).getD (mkRat 8 10)) 1),
      decide (max (mkRat 1 10)
        (min (((parameters.getD {}).temperature).getD (mkRat 8 10)) 1) >
          mkRat 1 10)⟩, ?_, ?_, ?_⟩
    · simp only [AIService.generate_response, h, hb, if_true]
    · constructor
      · intro _
        exact (AIService.get_model_type_conversational_iff model_name).mp hb
      · intro _
        rfl
    · constructor
      · intro hc
        simp at hc
      · intro hf
        exact absurd ((AIService.get_model_type_conversational_iff
          model_name).mp hb) (by simp [hf])
  · refine ⟨⟨.dialogpt, messages,
      min (((parameters.getD {}).max_tokens).getD 150) 500,
      max (mkRat 1 10)
        (min (((parameters.getD {}).temperature).getD (mkRat 8 10)) 1),
      decide (max (mkRat 1 10)
        (min (((parameters.getD {}).temperature).getD (mkRat 8 10)) 1) >
          mkRat 1 10)⟩, ?_, ?_, ?_⟩
    · simp only [AIService.generate_response, h, hb, if_true, if_false]
    · constructor
      · intro hc
        simp at hc
      · intro ht
        exact absurd ((AIService.get_model_type_conversational_iff
          model_name).mpr ht) hb
    · constructor
      · intro _
        cases hcb : AIService.containsBlenderbot model_name
        · rfl
        · exact absurd ((AIService.get_model_type_conversational_iff
            model_name).mpr hcb) hb
      · intro _
        rfl
· intro h
  exact ⟨"Model " ++ model_name ++ " is not loaded",
    by simp only [AIService.generate_response, h, if_false]⟩

/-- Witness for C3 at a loaded BlenderBot model and an unloaded model. -/
theorem C3_model_family_dispatch_witness :
    ("facebook/blenderbot-400M-distill" : String) ∈
      ["facebook/blenderbot-400M-distill"] ∧
    (∃ call : AIService.GenCall,
      AIService.generate_response ⟨["facebook/blenderbot-400M-distill"], none⟩
        "facebook/blenderbot-400M-distill" [] none = .ok call ∧
      (call.routine = .blenderbot ↔
        AIService.containsBlenderbot "facebook/blenderbot-400M-distill" = true) ∧
      (call.routine = .dialogpt ↔
        AIService.containsBlenderbot "facebook/blenderbot-400M-distill" = false)) :=
⟨by decide,
  (C3_model_family_dispatch ⟨["facebook/blenderbot-400M-distill"], none⟩
    "facebook/blenderbot-400M-distill" [] none).1 (by decide)⟩

namespace AIService

/-- `load_model` preserves the loader invariant. -/
theorem Inv_load (st : LoaderState) (n : String) (ok : Bool) (h : st.Inv) :
    ((load_model st n ok).2).Inv := by
unfold load_model
by_cases hm : n ∈ st.loaded_models
· simpa only [hm, if_true] using h
· cases ok
  · simpa only [hm, if_false, Bool.false_eq_true] using h
  · simp only [hm, if_false, if_true]
    obtain ⟨hnd, hcur⟩ := h
    constructor
    · simp [List.nodup_append, hnd, hm]
    · cases hc : st.current_model with
      | none => exact Or.inr ⟨n, rfl, by simp⟩
      | some c =>
        rcases hcur with h0 | ⟨m, hm1, hm2⟩
        · rw [hc] at h0
          cases h0
        · rw [hc] at hm1
          injection hm1 with hcm
          exact Or.inr ⟨c, rfl, by
            subst hcm
            exact List.mem_append_left _ hm2⟩

/-- `unload_model` preserves the loader invariant. -/
theorem Inv_unload (st : LoaderState) (n : String) (h : st.Inv) :
    ((unload_model st n).2).Inv := by
unfold unload_model
by_cases hm : n ∈ st.loaded_models
· simp only [hm, if_true]
  obtain ⟨hnd, hcur⟩ := h
  refine ⟨hnd.erase n, ?_⟩
  by_cases hc : st.current_model = some n
  · rw [if_pos hc]
    cases hh : (st.loaded_models.erase n).head? with
    | none => exact Or.inl rfl
    | some m => exact Or.inr ⟨m, rfl, List.mem_of_mem_head? hh⟩
  · rw [if_neg hc]
    rcases hcur with h0 | ⟨m, hm1, hm2⟩
    · exact Or.inl h0
    · refine Or.inr ⟨m, hm1, ?_⟩
      have hne : m ≠ n := by
        intro he
        exact hc (by rw [hm1, he])
      exact (List.mem_erase_of_ne hne).mpr hm2
· simpa only [hm, if_false] using h

/-- `set_current_model` preserves the loader invariant. -/
theorem Inv_setCurrent (st : LoaderState) (n : String) (h : st.Inv) :
    ((set_current_model st n).2).Inv := by
unfold set_current_model
by_cases hm : n ∈ st.loaded_models
· rw [if_pos hm]
  exact ⟨h.1, Or.inr ⟨n, rfl, hm⟩⟩
· rw [if_neg hm]
  exact h

/-- Any operation sequence preserves the loader invariant. -/
theorem Inv_runOps (ops : List LoaderOp) (st : LoaderState) (h : st.Inv) :
    (runOps st ops).Inv := by
induction ops generalizing st with
| nil => exact h
| cons op rest ih =>
  cases op with
  | load n ok => exact ih _ (Inv_load st n ok h)
  | unload n => exact ih _ (Inv_unload st n h)
  | setCurrent n => exact ih _ (Inv_setCurrent st n h)

/-- The fresh loader state satisfies the invariant. -/
theorem Inv_empty : LoaderState.empty.Inv :=
⟨List.nodup_nil, Or.inl rfl⟩

end AIService

/-- C8: after any sequence of `load_model`, `unload_model` and
`set_current_model` operations from a fresh loader, `current_model` is `None`
or a key of `loaded_models`; unloading the current model reassigns
`current_model` to some other loaded model or to `None`; and
`set_current_model` returns `False` and changes nothing when the named model
is not loaded. -/
theorem C8_current_model_invariant :
    (∀ ops : List AIService.LoaderOp,
      (AIService.runOps AIService.LoaderState.empty ops).Inv) ∧
    (∀ (st : AIService.LoaderState) (n : String), st.Inv →
      st.current_model = some n →
      ((AIService.unload_model st n).2.current_model = none ∨
        ∃ m, (AIService.unload_model st n).2.current_model = some m ∧
          m ≠ n ∧ m ∈ (AIService.unload_model st n).2.loaded_models)) ∧
    (∀ (st : AIService.LoaderState) (n : String), n ∉ st.loaded_models →
      AIService.set_current_model st n = (false, st)) := by
refine ⟨fun ops => AIService.Inv_runOps ops _ AIService.Inv_empty, ?_, ?_⟩
· intro st n h hcur
  obtain ⟨hnd, hbase⟩ := h
  have hmem : n ∈ st.loaded_models := by
    rcases hbase with h0 | ⟨m, hm1, hm2⟩
    · rw [hcur] at h0
      cases h0
    · rw [hcur] at hm1
      injection hm1 with he
      rw [he]
      exact hm2
  unfold AIService.unload_model
  rw [if_pos hmem]
  simp only [if_pos hcur]
  cases hh : (st.loaded_models.erase n).head? with
  | none => exact Or.inl rfl
  | some m =>
    refine Or.inr ⟨m, rfl, ?_, List.mem_of_mem_head? hh⟩
    intro he
    have hmm : m ∈ st.loaded_models.erase n := List.mem_of_mem_head? hh
    rw [he] at hmm
    exact (hnd.not_mem_erase) hmm
· intro st n hm
  unfold AIService.set_current_model
  rw [if_neg hm]

/-- Witness for C8: a concrete operation sequence, and `set_current_model`
rejecting an unloaded name on the fresh state. -/
theorem C8_current_model_invariant_witness :
    (AIService.runOps AIService.LoaderState.empty
      [.load "a" true, .load "b" true, .unload "a"]).Inv ∧
    AIService.set_current_model AIService.LoaderState.empty "x" =
      (false, AIService.LoaderState.empty) :=
⟨C8_current_model_invariant.1 _,
  C8_current_model_invariant.2.2 AIService.LoaderState.empty "x" (by decide)⟩

/-- C9: the generation service's `generate_response` is total — it always
returns a string — and whenever the model cannot be loaded or the dispatched
decoding fails it returns the deterministic fallback string, which is built
from the model's display name and the content of the last user message, or a
fixed greeting when the list contains no user message. -/
theorem C9_generation_service_total_with_fallback
    (st : AIService.LoaderState) (model_id : String)
    (messages : List AIService.Msg) (parameters : Option AIService.GenParams)
    (hf_ok : Bool) (decode : AIService.GenCall → Except String String) :
    ((AIService.GenerationService.generate_response st model_id messages
        parameters hf_ok decode).1 =
      AIService.generate_fallback_response model_id messages ∨
      ∃ call text, decode call = .ok text ∧
        (AIService.GenerationService.generate_response st model_id messages
          parameters hf_ok decode).1 = text) ∧
    (model_id ∉ st.loaded_models → hf_ok = false →
      (AIService.GenerationService.generate_response st model_id messages
        parameters hf_ok decode).1 =
        AIService.generate_fallback_response model_id messages) ∧
    (∀ call e, model_id ∈ st.loaded_models →
      AIService.generate_response st model_id messages parameters = .ok call →
      decode call = .error e →
      (AIService.GenerationService.generate_response st model_id messages
        parameters hf_ok decode).1 =
        AIService.generate_fallback_response model_id messages) ∧
    ((messages.filter (·.role = "user")).getLast? = none →
      AIService.generate_fallback_response model_id messages =
        "Hello! I'm " ++ AIService.get_model_display_name model_id ++
          ". How can I help you today?") ∧
    (∀ m, (messages.filter (·.role = "user")).getLast? = some m →
      AIService.generate_fallback_response model_id messages =
        "I understand you're asking about '" ++ m.content ++ "'. I'm " ++
          AIService.get_model_display_name model_id ++
          ", and I'm here to help, though I'm currently running in a limited mode.") := by
refine ⟨?_, ?_, ?_, ?_, ?_⟩
· unfold AIService.GenerationService.generate_response
  by_cases hl : AIService.is_model_loaded st model_id = true
  · simp only [hl, if_true]
    cases hg : AIService.generate_response st model_id messages parameters with
    | error e => exact Or.inl rfl
    | ok call =>
      dsimp only
      cases hd : decode call with
      | error e => exact Or.inl rfl
      | ok text => exact Or.inr ⟨call, text, hd, rfl⟩
  · simp only [hl, if_false, Bool.false_eq_true]
    cases hload : AIService.load_model st model_id hf_ok with
    | mk success st2 =>
      cases success with
      | false => exact Or.inl rfl
      | true =>
        cases hg : AIService.generate_response st2 model_id messages parameters with
        | error e => exact Or.inl rfl
        | ok call =>
          dsimp only
          cases hd : decode call with
          | error e => exact Or.inl rfl
          | ok text => exact Or.inr ⟨call, text, hd, rfl⟩
· intro hm hf
  unfold AIService.GenerationService.generate_response
  have hl : AIService.is_model_loaded st model_id = false := by
    simp [AIService.is_model_loaded, hm]
  have hload : AIService.load_model st model_id hf_ok = (false, st) := by
    subst hf
    simp [AIService.load_model, hm]
  simp only [hl, if_false, Bool.false_eq_true, hload]
· intro call e hl hg hd
  have hl2 : AIService.is_model_loaded st model_id = true := by
    simp [AIService.is_model_loaded, hl]
  unfold AIService.GenerationService.generate_response
  simp only [hl2, if_true, hg, hd]
· intro h
  unfold AIService.generate_fallback_response
  rw [h]
· intro m h
  unfold AIService.generate_fallback_response
  rw [h]

/-- Witness for C9: a model that is not loaded and cannot be loaded yields
the fallback string. -/
theorem C9_generation_service_total_with_fallback_witness :
    (("m" : String) ∉ ([] : List String)) ∧
    (AIService.GenerationService.generate_response ⟨[], none⟩ "m" []
      none false (fun _ => .error "boom")).1 =
      AIService.generate_fallback_response "m" [] :=
⟨by decide,
  (C9_generation_service_total_with_fallback ⟨[], none⟩ "m" [] none false
    (fun _ => .error "boom")).2.1 (by decide) rfl⟩

/-- C6: `get_or_create` settings returns the existing row unchanged when one
exists, otherwise creates and returns a row with defaults temperature "0.7",
`max_tokens` 1000 and `system_prompt` null; two consecutive calls for the
same chat id return equal settings and leave the same database (the
operation is idempotent). -/
theorem C6_settings_get_or_create (db : ApiService.DB) (chat_id : ℕ) :
    (∀ s, ApiService.get_settings_by_session_id db chat_id = some s →
      ApiService.get_or_create_by_session_id db chat_id = (s, db)) ∧
    (ApiService.get_settings_by_session_id db chat_id = none →
      ApiService.get_or_create_by_session_id db chat_id =
        (⟨chat_id, some "0.7", some 1000, none, db.clock⟩,
          { db with
            settings := db.settings ++
              [⟨chat_id, some "0.7", some 1000, none, db.clock⟩]
            clock := db.clock + 1 })) ∧
    ((ApiService.get_or_create_by_session_id
        (ApiService.get_or_create_by_session_id db chat_id).2 chat_id).1 =
      (ApiService.get_or_create_by_session_id db chat_id).1 ∧
     (ApiService.get_or_create_by_session_id
        (ApiService.get_or_create_by_session_id db chat_id).2 chat_id).2 =
      (ApiService.get_or_create_by_session_id db chat_id).2) := by
refine ⟨?_, ?_, ?_⟩
· intro s hs
  unfold ApiService.get_or_create_by_session_id
  rw [hs]
· intro h
  unfold ApiService.get_or_create_by_session_id
  rw [h]
· cases h : ApiService.get_settings_by_session_id db chat_id with
  | some s =>
    have h1 : ApiService.get_or_create_by_session_id db chat_id = (s, db) := by
      unfold ApiService.get_or_create_by_session_id
      rw [h]
    simp [h1]
  | none =>
    have h1 : ApiService.get_or_create_by_session_id db chat_id =
        (⟨chat_id, some "0.7", some 1000, none, db.clock⟩,
          { db with
            settings := db.settings ++
              [⟨chat_id, some "0.7", some 1000, none, db.clock⟩]
            clock := db.clock + 1 }) := by
      unfold ApiService.get_or_create_by_session_id
      rw [h]
    have h2 : ApiService.get_settings_by_session_id
        { db with
          settings := db.settings ++
            [(⟨chat_id, some "0.7", some 1000, none, db.clock⟩ : ApiService.SettingsRow)]
          clock := db.clock + 1 } chat_id =
        some ⟨chat_id, some "0.7", some 1000, none, db.clock⟩ := by
      unfold ApiService.get_settings_by_session_id at h ⊢
      simp [List.find?_append, h]
    have h3 : ApiService.get_or_create_by_session_id
        { db with
          settings := db.settings ++
            [(⟨chat_id, some "0.7", some 1000, none, db.clock⟩ : ApiService.SettingsRow)]
          clock := db.clock + 1 } chat_id =
        (⟨chat_id, some "0.7", some 1000, none, db.clock⟩,
          { db with
            settings := db.settings ++
              [⟨chat_id, some "0.7", some 1000, none, db.clock⟩]
            clock := db.clock + 1 }) := by
      unfold ApiService.get_or_create_by_session_id
      rw [h2]
    rw [h1]
    exact ⟨by rw [h3], by rw [h3]⟩

/-- Witness for C6: on an empty database the first call creates the default
row. -/
theorem C6_settings_get_or_create_witness :
    ApiService.get_settings_by_session_id ⟨[], [], [], 4⟩ 1 = none ∧
    ApiService.get_or_create_by_session_id ⟨[], [], [], 4⟩ 1 =
      (⟨1, some "0.7", some 1000, none, 4⟩,
        ⟨[], [], [⟨1, some "0.7", some 1000, none, 4⟩], 5⟩) :=
⟨by decide, (C6_settings_get_or_create ⟨[], [], [], 4⟩ 1).2.1 (by decide)⟩

/-- A one-chat database (with one message and a settings row) on which C5 is
decided. -/
def C5db : ApiService.DB :=
⟨[⟨1, "s", "t", "m", false, false, 1, 0, none⟩],
  [⟨2, 1, "user", "hi", none, 1⟩], [⟨1, some "0.7", some 1000, none, 0⟩], 3⟩

/-- C5 counterexample: `delete_chat` on an owned chat returns `True` and the
chat row, its messages and its settings are gone from the database — the
record is removed, not marked. -/
theorem C5_delete_is_not_soft_counterexample :
    (ApiService.ChatService.delete_chat C5db 1 "s").1 = true ∧
    (ApiService.ChatService.delete_chat C5db 1 "s").2.chats = [] ∧
    (ApiService.ChatService.delete_chat C5db 1 "s").2.messages = [] ∧
    (ApiService.ChatService.delete_chat C5db 1 "s").2.settings = [] := by
decide

/-- C5 as amended: deleting an owned chat is a hard delete — it removes the
chat row and, through the `cascade="all, delete-orphan"` relationships, its
message and settings rows, returning `True`; the soft delete via flag is the
separate archive operation, which only sets `is_archived` on the chat row and
leaves every other column, the messages and the settings unchanged. -/
theorem C5_delete_removes_archive_is_the_flag (db : ApiService.DB) (chat_id : ℕ) (session_id : String)
    (c : ApiService.Chat) (hc : ApiService.getChat db chat_id = some c)
    (hs : c.session_id = session_id) :
    ApiService.ChatService.delete_chat db chat_id session_id =
      (true,
        { db with
          chats := db.chats.filter (fun x => x.id ≠ chat_id)
          messages := db.messages.filter (fun m => m.session_id ≠ chat_id)
          settings := db.settings.filter (fun s => s.session_id ≠ chat_id) }) ∧
    ApiService.ChatService.archive_chat db chat_id session_id true =
      (some { c with is_archived := true },
        { db with
          chats := db.chats.map
            (fun x => if x.id = c.id then { c with is_archived := true } else x) }) ∧
    (ApiService.ChatService.archive_chat db chat_id session_id true).2.messages =
      db.messages ∧
    (ApiService.ChatService.archive_chat db chat_id session_id true).2.settings =
      db.settings := by
refine ⟨?_, ?_, ?_, ?_⟩
· unfold ApiService.ChatService.delete_chat ApiService.deleteChat
  rw [hc]
  dsimp only
  rw [if_pos hs]
  rfl
· unfold ApiService.ChatService.archive_chat ApiService.ChatRepository.archive_chat
    ApiService.DB.putChat
  rw [hc]
  dsimp only
  rw [if_pos hs]
· unfold ApiService.ChatService.archive_chat ApiService.ChatRepository.archive_chat
    ApiService.DB.putChat
  rw [hc]
  dsimp only
  rw [if_pos hs]
· unfold ApiService.ChatService.archive_chat ApiService.ChatRepository.archive_chat
    ApiService.DB.putChat
  rw [hc]
  dsimp only
  rw [if_pos hs]

/-- Witness for the amended C5 on the concrete one-chat database. -/
theorem C5_delete_removes_archive_is_the_flag_witness :
    ApiService.getChat C5db 1 =
      some ⟨1, "s", "t", "m", false, false, 1, 0, none⟩ ∧
    ApiService.ChatService.delete_chat C5db 1 "s" =
      (true,
        { C5db with
          chats := C5db.chats.filter (fun x => x.id ≠ 1)
          messages := C5db.messages.filter (fun m => m.session_id ≠ 1)
          settings := C5db.settings.filter (fun s => s.session_id ≠ 1) }) :=
⟨by decide,
  (C5_delete_removes_archive_is_the_flag C5db 1 "s"
    ⟨1, "s", "t", "m", false, false, 1, 0, none⟩ (by decide) (by decide)).1⟩

/-- C10: every session-scoped chat operation enforces ownership atomically:
when the chat does not exist or belongs to another session, `update_chat`,
`archive_chat`, `pin_chat`, `get_chat_settings` and `update_chat_settings`
return `None`, `delete_chat` returns `False`, `send_message_to_chat` raises,
and in each rejection the database is unchanged — no chat, message or
settings record is created, modified or deleted. -/
theorem C10_session_ownership_enforced (db : ApiService.DB) (chat_id : ℕ) (session_id : String)
    (upd : ApiService.ChatSessionUpdate) (supd : ApiService.ChatSettingsUpdate)
    (req : ApiService.SendMessageRequest)
    (ai : ApiService.AIRequest → Except String String)
    (archived pinned : Bool)
    (h : ApiService.getChat db chat_id = none ∨
      ∃ c, ApiService.getChat db chat_id = some c ∧
        c.session_id ≠ session_id) :
    ApiService.ChatService.update_chat db chat_id session_id upd =
      (none, db) ∧
    ApiService.ChatService.archive_chat db chat_id session_id archived =
      (none, db) ∧
    ApiService.ChatService.pin_chat db chat_id session_id pinned =
      (none, db) ∧
    ApiService.ChatService.get_chat_settings db chat_id session_id =
      (none, db) ∧
    ApiService.ChatService.update_chat_settings db chat_id session_id supd =
      (none, db) ∧
    ApiService.ChatService.delete_chat db chat_id session_id = (false, db) ∧
    ∃ e, ApiService.send_message_to_chat db chat_id session_id req ai =
      .error e := by
rcases h with h0 | ⟨c, hc, hs⟩
· refine ⟨?_, ?_, ?_, ?_, ?_, ?_, "Chat not found or access denied", ?_⟩
  · unfold ApiService.ChatService.update_chat
    rw [h0]
  · unfold ApiService.ChatService.archive_chat
    rw [h0]
  · unfold ApiService.ChatService.pin_chat
    rw [h0]
  · unfold ApiService.ChatService.get_chat_settings
    rw [h0]
  · unfold ApiService.ChatService.update_chat_settings
    rw [h0]
  · unfold ApiService.ChatService.delete_chat
    rw [h0]
  · unfold ApiService.send_message_to_chat
    rw [h0]
· refine ⟨?_, ?_, ?_, ?_, ?_, ?_, "Chat not found or access denied", ?_⟩
  · unfold ApiService.ChatService.update_chat
    rw [hc]
    dsimp only
    rw [if_neg hs]
  · unfold ApiService.ChatService.archive_chat
    rw [hc]
    dsimp only
    rw [if_neg hs]
  · unfold ApiService.ChatService.pin_chat
    rw [hc]
    dsimp only
    rw [if_neg hs]
  · unfold ApiService.ChatService.get_chat_settings
    rw [hc]
    dsimp only
    rw [if_neg hs]
  · unfold ApiService.ChatService.update_chat_settings
    rw [hc]
    dsimp only
    rw [if_neg hs]
  · unfold ApiService.ChatService.delete_chat
    rw [hc]
    dsimp only
    rw [if_neg hs]
  · unfold ApiService.send_message_to_chat
    rw [hc]
    dsimp only
    rw [if_neg hs]

/-- Witness for C10: a foreign session is rejected on a concrete database
without any change to it. -/
theorem C10_session_ownership_enforced_witness :
    ApiService.ChatService.delete_chat C5db 1 "other" = (false, C5db) ∧
    ApiService.ChatService.update_chat C5db 1 "other" {} = (none, C5db) :=
⟨(C10_session_ownership_enforced C5db 1 "other" {} {} ⟨"x", {}⟩
    (fun _ => Except.ok "r") true true
    (Or.inr ⟨⟨1, "s", "t", "m", false, false, 1, 0, none⟩, by decide,
      by decide⟩)).2.2.2.2.2.1,
  (C10_session_ownership_enforced C5db 1 "other" {} {} ⟨"x", {}⟩
    (fun _ => Except.ok "r") true true
    (Or.inr ⟨⟨1, "s", "t", "m", false, false, 1, 0, none⟩, by decide,
      by decide⟩)).1⟩

/-! The chat `ORDER BY` key order is total and transitive, so the sort
produces a sorted permutation. -/

namespace ApiService

instance : IsTotal Chat ChatOrder := by
constructor
intro a b
unfold ChatOrder chatLe
rcases ha : a.last_message_at with _ | x <;>
  rcases hb : b.last_message_at with _ | y <;> simp [ha, hb] <;> omega

instance : IsTrans Chat ChatOrder := by
constructor
intro a b c hab hbc
unfold ChatOrder chatLe at hab hbc ⊢
rcases ha : a.last_message_at with _ | x <;>
  rcases hb : b.last_message_at with _ | y <;>
  rcases hc : c.last_message_at with _ | z <;>
  simp [ha, hb, hc] at hab hbc ⊢ <;> omega

end ApiService

/-- C7: listing a session's chats with default flags returns only chats of
that session with `is_archived` false; the result is the slice that skips the
first `(page-1)*per_page` of the chats sorted by `last_message_at` then
`created_at` descending and keeps at most `per_page` of them, and it is
sorted by that order; with the archived-only filter only archived chats of
the session are returned. -/
theorem C7_session_chat_listing (db : ApiService.DB) (session_id : String) (page per_page : ℕ) :
    (∀ c ∈ ApiService.ChatService.get_session_chats db session_id page
        per_page false false false,
      c.session_id = session_id ∧ c.is_archived = false) ∧
    (ApiService.ChatService.get_session_chats db session_id page per_page
      false false false).length ≤ per_page ∧
    ApiService.ChatService.get_session_chats db session_id page per_page
        false false false =
      (((((db.chats.filter (fun c => c.session_id = session_id)).filter
        (fun c => !c.is_archived)).insertionSort
          ApiService.ChatOrder).drop ((page - 1) * per_page)).take per_page) ∧
    List.Pairwise ApiService.ChatOrder
      (ApiService.ChatService.get_session_chats db session_id page per_page
        false false false) ∧
    (∀ c ∈ ApiService.ChatService.get_session_chats db session_id page
        per_page false true false,
      c.session_id = session_id ∧ c.is_archived = true) := by
refine ⟨?_, ?_, rfl, ?_, ?_⟩
· intro c hcmem
  have h1 : c ∈ (((db.chats.filter (fun c => c.session_id = session_id)).filter
      (fun c => !c.is_archived)).insertionSort ApiService.ChatOrder) :=
    ((List.take_sublist _ _).trans (List.drop_sublist _ _)).subset hcmem
  have h2 := (List.mem_insertionSort ApiService.ChatOrder).mp h1
  have h3 := List.mem_filter.mp h2
  have h4 := List.mem_filter.mp h3.1
  refine ⟨by simpa using h4.2, by simpa using h3.2⟩
· exact List.length_take_le _ _
· have hs : List.Pairwise ApiService.ChatOrder
      (((db.chats.filter (fun c => c.session_id = session_id)).filter
        (fun c => !c.is_archived)).insertionSort ApiService.ChatOrder) :=
    List.sorted_insertionSort ApiService.ChatOrder _
  exact hs.sublist ((List.take_sublist _ _).trans (List.drop_sublist _ _))
· intro c hcmem
  have h1 : c ∈ ((db.chats.filter (fun c => c.session_id = session_id)).filter
      (fun c => c.is_archived)).insertionSort ApiService.ChatOrder :=
    ((List.take_sublist _ _).trans (List.drop_sublist _ _)).subset hcmem
  have h2 := (List.mem_insertionSort ApiService.ChatOrder).mp h1
  have h3 := List.mem_filter.mp h2
  have h4 := List.mem_filter.mp h3.1
  refine ⟨by simpa using h4.2, by simpa using h3.2⟩

/-- Witness for C7 on a concrete four-chat database. -/
theorem C7_session_chat_listing_witness :
    (⟨3, "s", "t3", "m", false, false, 0, 2, some 7⟩ : ApiService.Chat) ∈
      ApiService.ChatService.get_session_chats
        ⟨[⟨1, "s", "t1", "m", true, false, 0, 0, none⟩,
          ⟨2, "s", "t2", "m", false, false, 0, 1, some 5⟩,
          ⟨3, "s", "t3", "m", false, false, 0, 2, some 7⟩,
          ⟨4, "x", "t4", "m", false, false, 0, 3, some 9⟩], [], [], 10⟩
        "s" 1 10 false false false ∧
    ((⟨3, "s", "t3", "m", false, false, 0, 2, some 7⟩ :
        ApiService.Chat).session_id = "s" ∧
      (⟨3, "s", "t3", "m", false, false, 0, 2, some 7⟩ :
        ApiService.Chat).is_archived = false) :=
⟨by decide,
  (C7_session_chat_listing
    ⟨[⟨1, "s", "t1", "m", true, false, 0, 0, none⟩,
      ⟨2, "s", "t2", "m", false, false, 0, 1, some 5⟩,
      ⟨3, "s", "t3", "m", false, false, 0, 2, some 7⟩,
      ⟨4, "x", "t4", "m", false, false, 0, 3, some 9⟩], [], [], 10⟩
    "s" 1 10).1 ⟨3, "s", "t3", "m", false, false, 0, 2, some 7⟩ (by decide)⟩

namespace ApiService

open AIService (Msg GenParams)

/-- Anatomy of a successful `send_message_to_chat` run: the payload forwarded
to the AI service is fully determined by the chat row, the stored history
after the user message is added, and the chat's (possibly just created)
settings. -/
theorem send_message_ok_request (db : DB) (chat_id : ℕ) (session_id : String)
    (req : SendMessageRequest) (ai : AIRequest → Except String String)
    (c : Chat) (hc : getChat db chat_id = some c)
    (out : SendOk) (db2 : DB)
    (hout : send_message_to_chat db chat_id session_id req ai =
      .ok (out, db2)) :
    ∃ t, temperature_param
        ((get_or_create_by_session_id
          (add_message db chat_id "user" req.content).2 c.id).1).temperature =
        .ok t ∧
      out.request =
        ⟨c.model_name,
          (if system_prompt_used ((get_or_create_by_session_id
              (add_message db chat_id "user" req.content).2 c.id).1).system_prompt
           then [⟨"system", ((get_or_create_by_session_id
              (add_message db chat_id "user" req.content).2
                c.id).1).system_prompt.getD ""⟩]
           else []) ++
            (get_conversation_context
              (add_message db chat_id "user" req.content).2 chat_id 10).map
              (fun m => ⟨m.role, m.content⟩),
          if req.model_parameters.isEmpty
          then ⟨some t, none, some (max_tokens_param ((get_or_create_by_session_id
              (add_message db chat_id "user" req.content).2 c.id).1).max_tokens)⟩
          else (⟨some t, none, some (max_tokens_param ((get_or_create_by_session_id
              (add_message db chat_id "user" req.content).2 c.id).1).max_tokens)⟩ :
                GenParams).update req.model_parameters⟩ := by
unfold send_message_to_chat at hout
rw [hc] at hout
dsimp only at hout
by_cases hsid : c.session_id = session_id
· rw [if_pos hsid] at hout
  unfold send_message_to_chat_internal at hout
  rw [hc] at hout
  dsimp only at hout
  cases ht : temperature_param
      ((get_or_create_by_session_id
        (add_message db chat_id "user" req.content).2 c.id).1).temperature with
  | error e =>
    rw [ht] at hout
    simp at hout
  | ok t =>
    rw [ht] at hout
    dsimp only at hout
    refine ⟨t, rfl, ?_⟩
    split at hout
    · injection hout with hpair
      injection hpair with ha hb
      rw [← ha]
    · injection hout with hpair
      injection hpair with ha hb
      rw [← ha]
· rw [if_neg hsid] at hout
  simp at hout

end ApiService

namespace ApiService

/-- `add_message` preserves database well-formedness: the fresh timestamp is
strictly above the existing ones and below the bumped clock. -/
theorem WF_add_message (db : DB) (chat_id : ℕ) (role content : String)
    (meta : Option String) (h : DB.WF db) :
    DB.WF ((add_message db chat_id role content meta).2) := by
obtain ⟨hp, hlt⟩ := h
constructor
· simp only [add_message]
  rw [List.pairwise_append]
  refine ⟨hp, by simp, ?_⟩
  intro a ha b hb
  simp only [List.mem_singleton] at hb
  rw [hb]
  exact hlt a ha
· intro m hm
  simp only [add_message, List.mem_append, List.mem_singleton] at hm
  rcases hm with hm | hm
  · exact Nat.lt_succ_of_lt (hlt m hm)
  · rw [hm]
    exact Nat.lt_succ_self _

/-- The reversed take of a reversed list is a suffix: the conversation
context is a suffix of the chat's chronological history. -/
theorem ctx_suffix {α : Type} (l : List α) (n : ℕ) :
    (l.reverse.take n).reverse <:+ l := by
have h2 : ((l.reverse.take n).reverse).reverse <+: l.reverse := by
  rw [List.reverse_reverse]
  exact List.take_prefix _ _
exact List.reverse_prefix.mp h2

/-- The conversation context keeps at most `n` messages. -/
theorem ctx_length {α : Type} (l : List α) (n : ℕ) :
    ((l.reverse.take n).reverse).length ≤ n := by
simp only [List.length_reverse, List.length_take]
omega

/-- When the history is short enough the context is the whole history. -/
theorem ctx_all {α : Type} (l : List α) (n : ℕ) (h : l.length ≤ n) :
    (l.reverse.take n).reverse = l := by
rw [List.take_of_length_le (by simpa using h), List.reverse_reverse]

/-- The chat service's system-prompt test holds exactly for a non-null prompt
that does not strip to the empty string. -/
theorem system_prompt_used_iff (p : Option String) :
    system_prompt_used p = true ↔ ∃ s, p = some s ∧ pyStrip s ≠ "" := by
cases p with
| none => simp [system_prompt_used]
| some s =>
  simp only [system_prompt_used, Bool.and_eq_true]
  constructor
  · rintro ⟨h1, h2⟩
    refine ⟨s, rfl, ?_⟩
    intro he
    rw [he] at h2
    exact absurd h2 (by decide)
  · rintro ⟨s2, hs2, hne⟩
    have hss : s = s2 := by injection hs2
    subst hss
    have hstrip : ¬(pyStrip s).data.isEmpty = true := by
      intro hd
      apply hne
      cases hps : pyStrip s with
      | mk d =>
        rw [hps] at hd
        simp only [List.isEmpty_iff] at hd
        rw [hd]
    have hself : ¬s.data.isEmpty = true := by
      intro hd
      apply hstrip
      cases s with
      | mk d =>
        simp only [List.isEmpty_iff] at hd
        subst hd
        rfl
    exact ⟨by simp [pyTruthy, hself], by simp [pyTruthy, hstrip]⟩

end ApiService

/-- C2: for every message sent to an existing chat, the message list
forwarded to the AI service is: one system message first, carrying the chat
settings' system prompt, exactly when that prompt is non-null and does not
strip to the empty string (no system message otherwise); followed by at most
the 10 most recent stored messages of the chat — a suffix of the chat's
chronological history after the user message is stored, equal to the whole
history when it holds at most 10 messages, in strictly chronological
(oldest-first) order — each carrying its stored role and content. -/
theorem C2_prompt_assembly (db : ApiService.DB) (chat_id : ℕ)
    (session_id : String) (req : ApiService.SendMessageRequest)
    (ai : ApiService.AIRequest → Except String String) (c : ApiService.Chat)
    (hWF : ApiService.DB.WF db) (hc : ApiService.getChat db chat_id = some c)
    (out : ApiService.SendOk) (db2 : ApiService.DB)
    (hout : ApiService.send_message_to_chat db chat_id session_id req ai =
      .ok (out, db2)) :
    ∃ ctx : List ApiService.StoredMessage,
      ctx <:+ ((ApiService.add_message db chat_id "user"
        req.content).2.messages.filter (·.session_id = chat_id)) ∧
      ctx.length ≤ 10 ∧
      ((((ApiService.add_message db chat_id "user"
          req.content).2.messages.filter (·.session_id = chat_id)).length ≤
            10) →
        ctx = ((ApiService.add_message db chat_id "user"
          req.content).2.messages.filter (·.session_id = chat_id))) ∧
      ctx.Pairwise (fun a b => a.created_at < b.created_at) ∧
      out.request.messages =
        (if ApiService.system_prompt_used
            ((ApiService.get_or_create_by_session_id
              (ApiService.add_message db chat_id "user" req.content).2
                c.id).1).system_prompt
         then [⟨"system", ((ApiService.get_or_create_by_session_id
            (ApiService.add_message db chat_id "user" req.content).2
              c.id).1).system_prompt.getD ""⟩]
         else []) ++ ctx.map (fun m => ⟨m.role, m.content⟩) ∧
      (ApiService.system_prompt_used
          ((ApiService.get_or_create_by_session_id
            (ApiService.add_message db chat_id "user" req.content).2
              c.id).1).system_prompt = true ↔
        ∃ p, ((ApiService.get_or_create_by_session_id
          (ApiService.add_message db chat_id "user" req.content).2
            c.id).1).system_prompt = some p ∧ ApiService.pyStrip p ≠ "") := by
obtain ⟨t, ht, hreq⟩ := ApiService.send_message_ok_request db chat_id
  session_id req ai c hc out db2 hout
refine ⟨ApiService.get_conversation_context
  (ApiService.add_message db chat_id "user" req.content).2 chat_id 10,
  ApiService.ctx_suffix _ _, ApiService.ctx_length _ _,
  fun h => ApiService.ctx_all _ _ h, ?_, ?_,
  ApiService.system_prompt_used_iff _⟩
· have hWF1 := ApiService.WF_add_message db chat_id "user" req.content none
    hWF
  have hfil : ((ApiService.add_message db chat_id "user"
      req.content).2.messages.filter (·.session_id = chat_id)).Pairwise
      (fun a b => a.created_at < b.created_at) :=
    List.Pairwise.sublist (List.filter_sublist _) hWF1.1
  exact List.Pairwise.sublist
    (List.IsSuffix.sublist (ApiService.ctx_suffix _ _)) hfil
· rw [hreq]

/-- The result record of the concrete C2 witness run. -/
def C2out : ApiService.SendOk :=
⟨⟨3, 1, "user", "hello", none, 3⟩, ⟨4, 1, "assistant", "resp", none, 4⟩,
  ⟨"m", [⟨"user", "hi"⟩, ⟨"user", "hello"⟩],
    ⟨some (mkRat 7 10), none, some 1000⟩⟩, 3⟩

/-- The database after the concrete C2 witness run. -/
def C2db2 : ApiService.DB :=
⟨[⟨1, "s", "t", "m", false, false, 3, 0, some 5⟩],
  [⟨2, 1, "user", "hi", none, 1⟩, ⟨3, 1, "user", "hello", none, 3⟩,
    ⟨4, 1, "assistant", "resp", none, 4⟩],
  [⟨1, some "0.7", some 1000, none, 0⟩], 6⟩

/-- Witness for C2 on the concrete one-chat database. -/
theorem C2_prompt_assembly_witness :
    ApiService.DB.WF C5db ∧
    ApiService.getChat C5db 1 =
      some ⟨1, "s", "t", "m", false, false, 1, 0, none⟩ ∧
    ApiService.send_message_to_chat C5db 1 "s" ⟨"hello", {}⟩
      (fun _ => .ok "resp") = .ok (C2out, C2db2) ∧
    ∃ ctx : List ApiService.StoredMessage,
      ctx <:+ ((ApiService.add_message C5db 1 "user"
        "hello").2.messages.filter (·.session_id = 1)) ∧
      ctx.length ≤ 10 ∧
      ((((ApiService.add_message C5db 1 "user"
          "hello").2.messages.filter (·.session_id = 1)).length ≤ 10) →
        ctx = ((ApiService.add_message C5db 1 "user"
          "hello").2.messages.filter (·.session_id = 1))) ∧
      ctx.Pairwise (fun a b => a.created_at < b.created_at) ∧
      C2out.request.messages =
        (if ApiService.system_prompt_used
            ((ApiService.get_or_create_by_session_id
              (ApiService.add_message C5db 1 "user" "hello").2
                (1 : ℕ)).1).system_prompt
         then [⟨"system", ((ApiService.get_or_create_by_session_id
            (ApiService.add_message C5db 1 "user" "hello").2
              (1 : ℕ)).1).system_prompt.getD ""⟩]
         else []) ++ ctx.map (fun m => ⟨m.role, m.content⟩) ∧
      (ApiService.system_prompt_used
          ((ApiService.get_or_create_by_session_id
            (ApiService.add_message C5db 1 "user" "hello").2
              (1 : ℕ)).1).system_prompt = true ↔
        ∃ p, ((ApiService.get_or_create_by_session_id
          (ApiService.add_message C5db 1 "user" "hello").2
            (1 : ℕ)).1).system_prompt = some p ∧ ApiService.pyStrip p ≠ "") :=
⟨⟨by decide, by decide⟩, by decide, by decide,
  C2_prompt_assembly C5db 1 "s" ⟨"hello", {}⟩ (fun _ => .ok "resp")
    ⟨1, "s", "t", "m", false, false, 1, 0, none⟩ ⟨by decide, by decide⟩
    (by decide) C2out C2db2 (by decide)⟩

namespace AIService

/-- Characterisation of a successful loader dispatch: the effective
parameters and routine of the dispatched call. -/
theorem generate_ok_spec (st : LoaderState) (model_name : String)
    (messages : List Msg) (parameters : Option GenParams)
    (h : model_name ∈ st.loaded_models) :
    ∃ call : GenCall,
      AIService.generate_response st model_name messages parameters =
        .ok call ∧
      call.messages = messages ∧
      call.temperature =
        max (mkRat 1 10)
          (min (((parameters.getD {}).temperature).getD (mkRat 8 10)) 1) ∧
      call.max_length = min (((parameters.getD {}).max_tokens).getD 150) 500 ∧
      (call.do_sample = true ↔ call.temperature > mkRat 1 10) ∧
      (call.routine = .blenderbot ↔ containsBlenderbot model_name = true) := by
by_cases hb : get_model_type model_name = "conversational"
· refine ⟨⟨.blenderbot, messages,
    min (((parameters.getD {}).max_tokens).getD 150) 500,
    max (mkRat 1 10)
      (min (((parameters.getD {}).temperature).getD (mkRat 8 10)) 1),
    decide (max (mkRat 1 10)
      (min (((parameters.getD {}).temperature).getD (mkRat 8 10)) 1) >
        mkRat 1 10)⟩,
    ?_, rfl, rfl, rfl, by simp [decide_eq_true_iff], ?_⟩
  · simp only [AIService.generate_response, h, hb, if_true]
  · constructor
    · intro _
      exact (get_model_type_conversational_iff model_name).mp hb
    · intro _
      rfl
· refine ⟨⟨.dialogpt, messages,
    min (((parameters.getD {}).max_tokens).getD 150) 500,
    max (mkRat 1 10)
      (min (((parameters.getD {}).temperature).getD (mkRat 8 10)) 1),
    decide (max (mkRat 1 10)
      (min (((parameters.getD {}).temperature).getD (mkRat 8 10)) 1) >
        mkRat 1 10)⟩,
    ?_, rfl, rfl, rfl, by simp [decide_eq_true_iff], ?_⟩
  · simp only [AIService.generate_response, h, hb, if_true, if_false]
  · constructor
    · intro hcon
      simp at hcon
    · intro hcb
      exact absurd ((get_model_type_conversational_iff model_name).mpr hcb) hb

end AIService

/-- The database for the C4 counterexample: one chat whose settings carry
`max_tokens = 300` and no request overrides. -/
def C4db : ApiService.DB :=
⟨[⟨1, "s", "t", "microsoft/DialoGPT-small", false, false, 0, 0, none⟩], [],
  [⟨1, some "0.7", some 300, none, 0⟩], 3⟩

/-- C4 counterexample: with stored settings `max_tokens = 300` and no
per-request overrides, the chat service forwards the value under the key
`max_length`, the loader (which reads only `max_tokens`) dispatches with its
default `150`, and `150 ≠ min 300 500` — the decoding does not use the
settings' `max_tokens`. -/
theorem C4_max_tokens_key_mismatch_counterexample :
    (ApiService.send_message_to_chat C4db 1 "s" ⟨"hi", {}⟩
      (fun _ => .ok "resp")).map (fun p => p.1.request.parameters) =
      .ok ⟨some (mkRat 7 10), none, some 300⟩ ∧
    (AIService.generate_response
      ⟨["microsoft/DialoGPT-small"], some "microsoft/DialoGPT-small"⟩
      "microsoft/DialoGPT-small" [⟨"user", "hi"⟩]
      (some ⟨some (mkRat 7 10), none, some 300⟩)).map
        (fun call => call.max_length) = .ok 150 ∧
    (150 : ℤ) ≠ min 300 500 := by
decide

/-- C4 as amended: for every message sent to a chat without per-request
overrides, the parameter dictionary forwarded for the chat reflects the
stored settings as `{"temperature": parsed temperature (default 0.7 when
null/empty), "max_length": max_tokens (default 1000 when null/0)}` with no
`max_tokens` key; consequently, for any loader state in which the chat's
model is loaded, the dispatched call uses temperature
`max(0.1, min(parsed, 1.0))` but a maximum generated-token count of `150`
(the loader default, capped at 500), regardless of the settings'
`max_tokens`. -/
theorem C4_settings_temperature_applied_max_tokens_ignored
    (db : ApiService.DB) (chat_id : ℕ) (session_id : String)
    (req : ApiService.SendMessageRequest)
    (ai : ApiService.AIRequest → Except String String) (c : ApiService.Chat)
    (hc : ApiService.getChat db chat_id = some c)
    (hreq : req.model_parameters = {})
    (out : ApiService.SendOk) (db2 : ApiService.DB)
    (hout : ApiService.send_message_to_chat db chat_id session_id req ai =
      .ok (out, db2)) :
    ∃ t, ApiService.temperature_param
        ((ApiService.get_or_create_by_session_id
          (ApiService.add_message db chat_id "user" req.content).2
            c.id).1).temperature = .ok t ∧
      out.request.parameters =
        ⟨some t, none,
          some (ApiService.max_tokens_param
            ((ApiService.get_or_create_by_session_id
              (ApiService.add_message db chat_id "user" req.content).2
                c.id).1).max_tokens)⟩ ∧
      ∀ lst : AIService.LoaderState,
        out.request.model_id ∈ lst.loaded_models →
        ∃ call : AIService.GenCall,
          AIService.generate_response lst out.request.model_id
            out.request.messages (some out.request.parameters) = .ok call ∧
          call.temperature = max (mkRat 1 10) (min t 1) ∧
          call.max_length = 150 := by
obtain ⟨t, ht, hreqq⟩ := ApiService.send_message_ok_request db chat_id
  session_id req ai c hc out db2 hout
have hparams : out.request.parameters =
    ⟨some t, none,
      some (ApiService.max_tokens_param
        ((ApiService.get_or_create_by_session_id
          (ApiService.add_message db chat_id "user" req.content).2
            c.id).1).max_tokens)⟩ := by
  rw [hreqq, hreq]
  rfl
refine ⟨t, ht, hparams, ?_⟩
intro lst hl
obtain ⟨call, hcall, _, htemp, hmax, _, _⟩ := AIService.generate_ok_spec lst
  out.request.model_id out.request.messages (some out.request.parameters) hl
refine ⟨call, hcall, ?_, ?_⟩
· rw [htemp, hparams]
  rfl
· rw [hmax, hparams]
  rfl

/-- The result record of the concrete C4 witness run. -/
def C4out : ApiService.SendOk :=
⟨⟨3, 1, "user", "hi", none, 3⟩, ⟨4, 1, "assistant", "resp", none, 4⟩,
  ⟨"microsoft/DialoGPT-small", [⟨"user", "hi"⟩],
    ⟨some (mkRat 7 10), none, some 300⟩⟩, 2⟩

/-- The database after the concrete C4 witness run. -/
def C4db2 : ApiService.DB :=
⟨[⟨1, "s", "t", "microsoft/DialoGPT-small", false, false, 2, 0, some 5⟩],
  [⟨3, 1, "user", "hi", none, 3⟩, ⟨4, 1, "assistant", "resp", none, 4⟩],
  [⟨1, some "0.7", some 300, none, 0⟩], 6⟩

/-- Witness for the amended C4 on the concrete settings-bearing database. -/
theorem C4_settings_temperature_applied_max_tokens_ignored_witness :
    ApiService.getChat C4db 1 =
      some ⟨1, "s", "t", "microsoft/DialoGPT-small", false, false, 0, 0,
        none⟩ ∧
    ApiService.send_message_to_chat C4db 1 "s" ⟨"hi", {}⟩
      (fun _ => .ok "resp") = .ok (C4out, C4db2) ∧
    ∃ t, ApiService.temperature_param
        ((ApiService.get_or_create_by_session_id
          (ApiService.add_message C4db 1 "user" "hi").2
            (1 : ℕ)).1).temperature = .ok t ∧
      C4out.request.parameters =
        ⟨some t, none,
          some (ApiService.max_tokens_param
            ((ApiService.get_or_create_by_session_id
              (ApiService.add_message C4db 1 "user" "hi").2
                (1 : ℕ)).1).max_tokens)⟩ ∧
      ∀ lst : AIService.LoaderState,
        C4out.request.model_id ∈ lst.loaded_models →
        ∃ call : AIService.GenCall,
          AIService.generate_response lst C4out.request.model_id
            C4out.request.messages (some C4out.request.parameters) =
              .ok call ∧
          call.temperature = max (mkRat 1 10) (min t 1) ∧
          call.max_length = 150 :=
⟨by decide, by decide,
  C4_settings_temperature_applied_max_tokens_ignored C4db 1 "s" ⟨"hi", {}⟩
    (fun _ => .ok "resp")
    ⟨1, "s", "t", "microsoft/DialoGPT-small", false, false, 0, 0, none⟩
    (by decide) (by decide) C4out C4db2 (by decide)⟩
